import Mathlib

/-
  Shallow embedding of the FixIt services-marketplace backend:
  the booking lifecycle and ledger engine.

  Sources embedded:
  * src/models/User.js       : wallet methods (addEarnings, addPendingEarnings,
                               confirmEarnings) and the bookings router
                               (accept / reject / start / complete / confirm /
                               cancel / dispute).
  * src/models/Booking.js    : updateStatus, canBeCancelled, shouldAutoConfirm.
  * src/routes/admin.js      : PUT /api/admin/bookings/:id/resolve-dispute.
  * src/unnamed/part_001     : payments router (POST /payments/withdraw,
                               POST /payments/process wallet credit,
                               POST /payments/webhook/stripe).
  * src/utils/paymentService.js : calculatePlatformFee, processProviderWithdrawal.

  Modelling conventions:
  * JS numbers holding money are modelled as rationals; timestamps are
    integers (milliseconds since the epoch).  Each request handler receives
    the current wall-clock instant as an explicit `now` argument; the several
    `new Date()` / `Date.now()` calls inside one handler are modelled as the
    same instant.
  * Mongoose documents are immutable Lean structures; a handler returns the
    updated documents together with the HTTP response.  An early `return
    res.status(...)` is modelled by returning the documents unchanged.
  * Database ids are natural numbers; fields irrelevant to every claim
    (photos urls, notification flags, external ids) are kept only where a
    claim mentions them.
-/

namespace FixIt

/-- User roles (User schema `role` enum). -/
inductive Role
  | client
  | provider
  | admin
deriving DecidableEq, Repr

/-- Provider wallet embedded in the user document
    (`providerInfo.wallet` in src/models/User.js). -/
structure Wallet where
  balance : ℚ
  pendingBalance : ℚ
  totalEarnings : ℚ
deriving DecidableEq, Repr

/-- The slice of the User document the booking/payment handlers touch. -/
structure User where
  role : Role
  /-- `providerInfo.isActivated` -/
  isActivated : Bool
  /-- `providerInfo.wallet` -/
  wallet : Wallet
deriving DecidableEq, Repr

/-- src/models/User.js lines 193-199: `addEarnings(amount)`. -/
def User.addEarnings (u : User) (amount : ℚ) : User :=
  if u.role = Role.provider then
    { u with wallet := { u.wallet with
        balance := u.wallet.balance + amount,
        totalEarnings := u.wallet.totalEarnings + amount } }
  else u

/-- src/models/User.js lines 201-206: `addPendingEarnings(amount)`. -/
def User.addPendingEarnings (u : User) (amount : ℚ) : User :=
  if u.role = Role.provider then
    { u with wallet := { u.wallet with
        pendingBalance := u.wallet.pendingBalance + amount } }
  else u

/-- src/models/User.js lines 208-214: `confirmEarnings(amount)`. -/
def User.confirmEarnings (u : User) (amount : ℚ) : User :=
  if u.role = Role.provider then
    { u with wallet := { u.wallet with
        pendingBalance := u.wallet.pendingBalance - amount,
        balance := u.wallet.balance + amount } }
  else u

/-- src/unnamed/part_001 lines 362-368 (POST /payments/process, synchronous
    local-method success path): the route credits the wallet fields directly,
    bypassing the `addEarnings` method. -/
def processPaymentWalletCredit (u : User) (providerAmount : ℚ) : User :=
  { u with wallet := { u.wallet with
      balance := u.wallet.balance + providerAmount,
      totalEarnings := u.wallet.totalEarnings + providerAmount } }

/-- Booking status enum (src/models/Booking.js lines 99-103). -/
inductive BookingStatus
  | pending
  | accepted
  | rejected
  | in_progress
  | completed
  | cancelled
  | disputed
deriving DecidableEq, Repr

/-- One entry of `statusHistory` (src/models/Booking.js lines 106-117);
    the mongoose default timestamp is not needed by any claim. -/
structure HistoryEntry where
  status : BookingStatus
  updatedBy : ℕ
  reason : String
deriving DecidableEq, Repr

/-- `confirmation.confirmationMethod` enum. -/
inductive ConfirmationMethod
  | manual
  | auto
deriving DecidableEq, Repr

/-- The `confirmation` sub-document (src/models/Booking.js lines 160-171). -/
structure Confirmation where
  clientConfirmed : Bool
  confirmedAt : Option ℤ
  autoConfirmAt : Option ℤ
  confirmationMethod : Option ConfirmationMethod
deriving DecidableEq, Repr

/-- The `execution` sub-document (src/models/Booking.js lines 132-138). -/
structure Execution where
  startedAt : Option ℤ
  completedAt : Option ℤ
  actualDuration : Option ℤ
  workPhotos : List String
  completionNotes : Option String
deriving DecidableEq, Repr

/-- The `pricing` sub-document (src/models/Booking.js lines 75-96). -/
structure Pricing where
  servicePrice : ℚ
  addOnsPrice : ℚ
  platformFee : ℚ
  totalAmount : ℚ
deriving DecidableEq, Repr

/-- `payment.status` enum of the booking's payment sub-document. -/
inductive BookingPaymentStatus
  | pending
  | processing
  | completed
  | failed
  | refunded
deriving DecidableEq, Repr

/-- The `payment` sub-document of a booking (src/models/Booking.js 141-157). -/
structure BookingPayment where
  status : BookingPaymentStatus
  paidAt : Option ℤ
deriving DecidableEq, Repr

/-- `dispute.resolution` (src/models/Booking.js lines 187-195). -/
structure Resolution where
  resolvedBy : ℕ
  resolvedAt : ℤ
  resolution : String
  refundAmount : ℚ
deriving DecidableEq, Repr

/-- The `dispute` sub-document (src/models/Booking.js lines 174-196). -/
structure Dispute where
  isDisputed : Bool
  disputedBy : Option ℕ
  disputedAt : Option ℤ
  reason : Option String
  description : Option String
  evidence : List String
  resolution : Option Resolution
deriving DecidableEq, Repr

/-- The `cancellation` sub-document (src/models/Booking.js lines 211-220). -/
structure Cancellation where
  cancelledBy : ℕ
  cancelledAt : ℤ
  reason : String
deriving DecidableEq, Repr

/-- The `providerResponse` sub-document (src/models/Booking.js 120-129);
    the optional suggested alternate time is kept opaque. -/
structure ProviderResponse where
  accepted : Bool
  respondedAt : ℤ
  message : Option String
deriving DecidableEq, Repr

/-- The Booking document (the slice the lifecycle handlers read or write).
    `paymentStatusTop`/`paidAtTop` mirror the non-schema dynamic properties
    `booking.paymentStatus` / `booking.paidAt` assigned by the payments
    router (src/unnamed/part_001 lines 357-358 and 628-629). -/
structure Booking where
  status : BookingStatus
  statusHistory : List HistoryEntry
  /-- `scheduledDate`, milliseconds since the epoch. -/
  scheduledDate : ℤ
  pricing : Pricing
  execution : Execution
  confirmation : Confirmation
  dispute : Dispute
  payment : BookingPayment
  providerResponse : Option ProviderResponse
  cancellation : Option Cancellation
  paymentStatusTop : Option String
  paidAtTop : Option ℤ
deriving DecidableEq, Repr

/-- One hour in milliseconds (`1000 * 60 * 60`). -/
def hourMs : ℤ := 1000 * 60 * 60

/-- The 48-hour auto-confirmation window (`48 * 60 * 60 * 1000` ms). -/
def autoConfirmWindowMs : ℤ := 48 * hourMs

/-- src/models/Booking.js lines 264-277: `updateStatus(newStatus, updatedBy,
    reason)`.  Pushes the current status onto the history, sets the new
    status, and — when the new status is `completed` — records the completion
    time and arms the 48-hour auto-confirmation deadline. -/
def Booking.updateStatus (b : Booking) (newStatus : BookingStatus)
    (updatedBy : ℕ) (reason : String) (now : ℤ) : Booking :=
  let b' : Booking :=
    { b with
      statusHistory := b.statusHistory ++
        [{ status := b.status, updatedBy := updatedBy, reason := reason }],
      status := newStatus }
  if newStatus = BookingStatus.completed then
    { b' with
      execution := { b'.execution with completedAt := some now },
      confirmation := { b'.confirmation with
        autoConfirmAt := some (now + autoConfirmWindowMs) } }
  else b'

/-- src/models/Booking.js lines 290-296: `canBeCancelled()`.  The source
    computes `hoursDifference = (scheduledDateTime - now) / (1000*60*60)` and
    requires status pending/accepted and `hoursDifference > 2`. -/
def Booking.canBeCancelled (b : Booking) (now : ℤ) : Bool :=
  let hoursDifference : ℚ := ((b.scheduledDate - now : ℤ) : ℚ) / (1000 * 60 * 60)
  decide (b.status = BookingStatus.pending ∨ b.status = BookingStatus.accepted)
    && decide (2 < hoursDifference)

/-- src/models/Booking.js lines 299-304: `shouldAutoConfirm()`.  A missing
    `autoConfirmAt` date is falsy in the source conjunction. -/
def Booking.shouldAutoConfirm (b : Booking) (now : ℤ) : Bool :=
  decide (b.status = BookingStatus.completed)
    && !b.confirmation.clientConfirmed
    && (match b.confirmation.autoConfirmAt with
        | none => false
        | some t => decide (t ≤ now))

/-- JS `Math.round`: round half towards positive infinity. -/
def jsRound (q : ℚ) : ℤ := ⌊q + 1 / 2⌋

/-- `req.userBookingRole` as attached by `requireBookingAccess`
    (src/middleware/auth.js lines 132-169): `client` or `provider` for the
    booking's parties; an admin passes the middleware early and the field
    stays undefined, modelled as `none`. -/
inductive BookingRole
  | client
  | provider
deriving DecidableEq, Repr

/-- The HTTP response of a handler, reduced to success versus an error with
    its status code and message. -/
inductive Response
  | ok (message : String)
  | err (code : ℕ) (message : String)
deriving DecidableEq, Repr

/-- Whether a response is a success (`res.json({ success: true, ... })`). -/
def Response.isOk : Response → Bool
  | Response.ok _ => true
  | Response.err _ _ => false

/-- Result of a booking-route handler that can also mutate the provider's
    user document. -/
structure BookingProviderResult where
  response : Response
  booking : Booking
  provider : User
deriving DecidableEq, Repr

/-- src/models/User.js lines 1127-1166: `PUT /api/bookings/:id/accept`. -/
def acceptRoute (role : Option BookingRole) (b : Booking) (userId : ℕ)
    (message : Option String) (now : ℤ) : Response × Booking :=
  if role ≠ some BookingRole.provider then
    (Response.err 403 "Only providers can accept bookings", b)
  else if b.status ≠ BookingStatus.pending then
    (Response.err 400 "Booking cannot be accepted in current status", b)
  else
    let b := b.updateStatus BookingStatus.accepted userId
      "Provider accepted the booking" now
    let b := { b with
      providerResponse := some { accepted := true, respondedAt := now,
                                 message := message } }
    (Response.ok "Booking accepted successfully", b)

/-- src/models/User.js lines 1171-1217: `PUT /api/bookings/:id/reject`;
    the express-validator `notEmpty` check on the reason runs first. -/
def rejectRoute (role : Option BookingRole) (b : Booking) (userId : ℕ)
    (reason : String) (now : ℤ) : Response × Booking :=
  if reason = "" then
    (Response.err 400 "Rejection reason is required", b)
  else if role ≠ some BookingRole.provider then
    (Response.err 403 "Only providers can reject bookings", b)
  else if b.status ≠ BookingStatus.pending then
    (Response.err 400 "Booking cannot be rejected in current status", b)
  else
    let b := b.updateStatus BookingStatus.rejected userId reason now
    let b := { b with
      providerResponse := some { accepted := false, respondedAt := now,
                                 message := some reason } }
    (Response.ok "Booking rejected", b)

/-- src/models/User.js lines 1222-1252: `PUT /api/bookings/:id/start`. -/
def startRoute (role : Option BookingRole) (b : Booking) (userId : ℕ)
    (now : ℤ) : Response × Booking :=
  if role ≠ some BookingRole.provider then
    (Response.err 403 "Only providers can start service", b)
  else if b.status ≠ BookingStatus.accepted then
    (Response.err 400 "Service can only be started for accepted bookings", b)
  else
    let b := b.updateStatus BookingStatus.in_progress userId "Service started" now
    let b := { b with execution := { b.execution with startedAt := some now } }
    (Response.ok "Service started successfully", b)

/-- src/models/User.js lines 1257-1309: `PUT /api/bookings/:id/complete`.
    `actualDuration = Math.round((endTime - startTime) / (1000 * 60))`; the
    source reads `execution.startedAt` without a null check (a missing start
    time would yield NaN, modelled as `none`), then calls
    `addPendingEarnings(servicePrice + addOnsPrice)` on the provider. -/
def completeRoute (role : Option BookingRole) (b : Booking) (provider : User)
    (userId : ℕ) (completionNotes : Option String)
    (workPhotos : Option (List String)) (now : ℤ) : BookingProviderResult :=
  if role ≠ some BookingRole.provider then
    { response := Response.err 403 "Only providers can complete service",
      booking := b, provider := provider }
  else if b.status ≠ BookingStatus.in_progress then
    { response :=
        Response.err 400 "Service can only be completed for in-progress bookings",
      booking := b, provider := provider }
  else
    let actualDuration : Option ℤ :=
      b.execution.startedAt.map
        (fun s => jsRound (((now - s : ℤ) : ℚ) / (1000 * 60)))
    let b := b.updateStatus BookingStatus.completed userId "Service completed" now
    let b := { b with execution := { b.execution with
        completedAt := some now,
        actualDuration := actualDuration,
        completionNotes := completionNotes,
        workPhotos := workPhotos.getD [] } }
    let provider :=
      provider.addPendingEarnings (b.pricing.servicePrice + b.pricing.addOnsPrice)
    { response :=
        Response.ok "Service completed successfully. Awaiting client confirmation.",
      booking := b, provider := provider }

/-- src/models/User.js lines 1314-1362: `PUT /api/bookings/:id/confirm`.
    Client-only; requires status `completed` and rejects an already
    confirmed booking before any mutation; on success flips the confirmation
    flag, transfers `servicePrice + addOnsPrice` from pending to available
    via `confirmEarnings`, and marks the payment sub-record completed. -/
def confirmRoute (role : Option BookingRole) (b : Booking) (provider : User)
    (now : ℤ) : BookingProviderResult :=
  if role ≠ some BookingRole.client then
    { response := Response.err 403 "Only clients can confirm service completion",
      booking := b, provider := provider }
  else if b.status ≠ BookingStatus.completed then
    { response := Response.err 400 "Only completed services can be confirmed",
      booking := b, provider := provider }
  else if b.confirmation.clientConfirmed then
    { response := Response.err 400 "Service already confirmed",
      booking := b, provider := provider }
  else
    let b := { b with confirmation := { b.confirmation with
        clientConfirmed := true,
        confirmedAt := some now,
        confirmationMethod := some ConfirmationMethod.manual } }
    let earningsAmount := b.pricing.servicePrice + b.pricing.addOnsPrice
    let provider := provider.confirmEarnings earningsAmount
    let b := { b with payment := { b.payment with
        status := BookingPaymentStatus.completed, paidAt := some now } }
    { response := Response.ok "Service confirmed successfully. Payment processed.",
      booking := b, provider := provider }

set_option linter.unusedVariables false in
/-- src/models/User.js lines 1367-1406: `PUT /api/bookings/:id/cancel`.
    After the reason validation the handler checks only `canBeCancelled()`;
    it performs no check of `req.userBookingRole` (the `role` parameter is
    taken but never read, exactly as in the source). -/
def cancelRoute (role : Option BookingRole) (b : Booking) (userId : ℕ)
    (reason : String) (now : ℤ) : Response × Booking :=
  if reason = "" then
    (Response.err 400 "Cancellation reason is required", b)
  else if ¬ b.canBeCancelled now then
    (Response.err 400 "Booking cannot be cancelled at this time", b)
  else
    let b := b.updateStatus BookingStatus.cancelled userId reason now
    let b := { b with
      cancellation := some { cancelledBy := userId, cancelledAt := now,
                             reason := reason } }
    (Response.ok "Booking cancelled successfully", b)

set_option linter.unusedVariables false in
/-- src/models/User.js lines 1411-1461: `PUT /api/bookings/:id/dispute`.
    Requires status completed or in_progress and not already disputed; like
    the cancel handler it never reads `req.userBookingRole`.  The whole
    `dispute` sub-document is overwritten (dropping any prior resolution). -/
def disputeRoute (role : Option BookingRole) (b : Booking) (userId : ℕ)
    (reason description : String) (evidence : Option (List String))
    (now : ℤ) : Response × Booking :=
  if reason = "" ∨ description = "" then
    (Response.err 400 "Validation errors", b)
  else if ¬ (b.status = BookingStatus.completed
      ∨ b.status = BookingStatus.in_progress) then
    (Response.err 400 "Only completed or in-progress bookings can be disputed", b)
  else if b.dispute.isDisputed then
    (Response.err 400 "Booking is already disputed", b)
  else
    let b := b.updateStatus BookingStatus.disputed userId reason now
    let b := { b with dispute :=
      { isDisputed := true, disputedBy := some userId, disputedAt := some now,
        reason := some reason, description := some description,
        evidence := evidence.getD [], resolution := none } }
    (Response.ok "Dispute created successfully. Admin will review.", b)

/-- Payment ledger-entry type enum (src/unnamed/part_000 Payment schema). -/
inductive PaymentType
  | activation_fee
  | booking_payment
  | subscription
  | withdrawal
  | refund
deriving DecidableEq, Repr

/-- Payment ledger-entry status enum (src/unnamed/part_000 Payment schema). -/
inductive PaymentStatus
  | pending
  | processing
  | completed
  | failed
  | cancelled
  | refunded
deriving DecidableEq, Repr

/-- The slice of a Payment ledger entry the handlers in scope read or
    write.  `providerAmount` is `metadata.providerAmount` recorded for
    booking payments (src/unnamed/part_001 lines 345-351); identifiers,
    currency and descriptions are not needed by any claim. -/
structure Payment where
  type : PaymentType
  amount : ℚ
  status : PaymentStatus
  providerAmount : ℚ
deriving DecidableEq, Repr

/-- Result of the admin dispute-resolution handler: the response, the
    updated booking, and the `refund`-type Payment created when a positive
    refund amount was requested. -/
structure ResolveResult where
  response : Response
  booking : Booking
  refundPayment : Option Payment
deriving DecidableEq, Repr

/-- src/routes/admin.js lines 205-270:
    `PUT /api/admin/bookings/:id/resolve-dispute` (admin-only router).
    Validation (`resolution` non-empty, `refundAmount` optional float ≥ 0)
    runs first; the handler requires status `disputed`, stores the
    resolution sub-record (`refundAmount || 0`), transitions to `completed`
    through `updateStatus`, and creates a completed `refund` Payment when
    `refundAmount && refundAmount > 0`. -/
def resolveDisputeRoute (b : Booking) (adminId : ℕ) (resolution : String)
    (refundAmount : Option ℚ) (now : ℤ) : ResolveResult :=
  if decide (resolution = "")
      || refundAmount.any (fun r => decide (r < 0)) then
    { response := Response.err 400 "Validation errors",
      booking := b, refundPayment := none }
  else if b.status ≠ BookingStatus.disputed then
    { response := Response.err 400 "Booking is not disputed",
      booking := b, refundPayment := none }
  else
    let b := { b with
      dispute := { b.dispute with
        resolution := some { resolvedBy := adminId, resolvedAt := now,
                             resolution := resolution,
                             refundAmount := refundAmount.getD 0 } } }
    let b := b.updateStatus BookingStatus.completed adminId
      "Dispute resolved by admin" now
    let refundPayment : Option Payment :=
      match refundAmount with
      | some r =>
          if 0 < r then
            some { type := PaymentType.refund, amount := r,
                   status := PaymentStatus.completed, providerAmount := 0 }
          else none
      | none => none
    { response := Response.ok "Dispute resolved successfully",
      booking := b, refundPayment := refundPayment }

/-- Fee types of `calculatePlatformFee` (src/utils/paymentService.js 209-221). -/
inductive FeeType
  | booking
  | activation
  | withdrawal
deriving DecidableEq, Repr

/-- src/utils/paymentService.js lines 209-221: `calculatePlatformFee`.
    Withdrawal fee is `Math.max(amount * 0.02, 2)`; booking and activation
    fees are the flat table values. -/
def calculatePlatformFee (amount : ℚ) (feeType : FeeType) : ℚ :=
  match feeType with
  | FeeType.withdrawal => max (amount * (2 / 100)) 2
  | FeeType.booking => 5
  | FeeType.activation => 20

/-- Joint state of the documents the Stripe webhook handler touches. -/
structure WebhookResult where
  payment : Payment
  booking : Booking
  provider : User
deriving DecidableEq, Repr

/-- src/unnamed/part_001 lines 612-643: the processing the Stripe webhook
    applies to a `payment_intent.succeeded` event once `Payment.findOne`
    matched the event's transaction reference (the deployed handler
    fabricates a fresh demo event id before this lookup).  The payment's
    status is set to `completed` with no guard on its current status, and
    for a booking payment the booking is marked paid and the provider's
    wallet fields `balance` and `totalEarnings` are incremented by
    `metadata.providerAmount` directly. -/
def stripeWebhookDeliver (payment : Payment) (b : Booking) (provider : User)
    (now : ℤ) : WebhookResult :=
  let payment := { payment with status := PaymentStatus.completed }
  if payment.type = PaymentType.booking_payment then
    let b := { b with paymentStatusTop := some "paid", paidAtTop := some now }
    let providerAmount := payment.providerAmount
    let provider := { provider with wallet := { provider.wallet with
        balance := provider.wallet.balance + providerAmount,
        totalEarnings := provider.wallet.totalEarnings + providerAmount } }
    { payment := payment, booking := b, provider := provider }
  else
    { payment := payment, booking := b, provider := provider }

/-- Result of the withdrawal handler: response, updated user document, and
    the `withdrawal`-type Payment record created on success. -/
structure WithdrawResult where
  response : Response
  user : User
  paymentRecord : Option Payment
deriving DecidableEq, Repr

/-- src/unnamed/part_001 lines 458-587: `POST /payments/withdraw`
    (`requireRole('provider')` guards the route; the handler re-checks the
    role).  Fee: `calculatePlatformFee(amount, 'withdrawal')`; the handler
    rejects with `Insufficient balance` when
    `balance < amount + withdrawalFee`, then calls
    `PaymentService.processProviderWithdrawal`, which fails for amounts
    below the 50 EGP minimum (src/utils/paymentService.js lines 178-206);
    on success a processing `withdrawal` Payment of `-amount` is recorded
    and `balance -= amount + withdrawalFee`. -/
def withdrawRoute (u : User) (amount : ℚ) : WithdrawResult :=
  if u.role ≠ Role.provider then
    { response := Response.err 403 "Only providers can request withdrawals",
      user := u, paymentRecord := none }
  else if ¬ u.isActivated then
    { response :=
        Response.err 400 "Provider account must be activated to request withdrawals",
      user := u, paymentRecord := none }
  else
    let currentBalance := u.wallet.balance
    let withdrawalFee := calculatePlatformFee amount FeeType.withdrawal
    let totalDeduction := amount + withdrawalFee
    if currentBalance < totalDeduction then
      { response := Response.err 400 "Insufficient balance",
        user := u, paymentRecord := none }
    else if amount < 50 then
      { response := Response.err 400 "Withdrawal processing failed",
        user := u, paymentRecord := none }
    else
      let payment : Payment :=
        { type := PaymentType.withdrawal, amount := -amount,
          status := PaymentStatus.processing, providerAmount := 0 }
      let u := { u with wallet := { u.wallet with
          balance := u.wallet.balance - totalDeduction } }
      { response := Response.ok "Withdrawal processed",
        user := u, paymentRecord := some payment }

/-- One request to the confirm endpoint: the caller's booking-context role
    and the instant of the call. -/
structure ConfirmCall where
  role : Option BookingRole
  now : ℤ
deriving DecidableEq, Repr

/-- Sequential execution of a list of confirm requests against one booking
    and its provider, counting the successful confirmations. -/
def runConfirms : List ConfirmCall → Booking → User → ℕ
  | [], _, _ => 0
  | c :: cs, b, u =>
      let r := confirmRoute c.role b u c.now
      (if r.response.isOk then 1 else 0) + runConfirms cs r.booking r.provider

/-! Concrete fixtures used by counterexamples and witnesses. -/

/-- An execution record before the service starts. -/
def freshExecution : Execution :=
  { startedAt := none, completedAt := none, actualDuration := none,
    workPhotos := [], completionNotes := none }

/-- A confirmation record in its schema defaults. -/
def freshConfirmation : Confirmation :=
  { clientConfirmed := false, confirmedAt := none, autoConfirmAt := none,
    confirmationMethod := none }

/-- A dispute record in its schema defaults. -/
def freshDispute : Dispute :=
  { isDisputed := false, disputedBy := none, disputedAt := none,
    reason := none, description := none, evidence := [], resolution := none }

/-- Pricing of the running example (service 200, add-ons 50, fee 5). -/
def samplePricing : Pricing :=
  { servicePrice := 200, addOnsPrice := 50, platformFee := 5,
    totalAmount := 255 }

/-- An activated provider with an empty wallet. -/
def sampleProvider : User :=
  { role := Role.provider, isActivated := true,
    wallet := { balance := 0, pendingBalance := 0, totalEarnings := 0 } }

/-- A client user. -/
def sampleClient : User :=
  { role := Role.client, isActivated := false,
    wallet := { balance := 0, pendingBalance := 0, totalEarnings := 0 } }

/-- A pending booking scheduled ten hours after the epoch. -/
def baseBooking : Booking :=
  { status := BookingStatus.pending, statusHistory := [],
    scheduledDate := 10 * hourMs, pricing := samplePricing,
    execution := freshExecution, confirmation := freshConfirmation,
    dispute := freshDispute,
    payment := { status := BookingPaymentStatus.pending, paidAt := none },
    providerResponse := none, cancellation := none,
    paymentStatusTop := none, paidAtTop := none }

/-- A booking whose service is running (started at the epoch). -/
def inProgressBooking : Booking :=
  { baseBooking with
    status := BookingStatus.in_progress,
    execution := { freshExecution with startedAt := some 0 } }

/-- A completed booking awaiting client confirmation. -/
def completedBooking : Booking :=
  { baseBooking with
    status := BookingStatus.completed,
    execution := { freshExecution with startedAt := some 0,
                                       completedAt := some hourMs },
    confirmation := { freshConfirmation with
                      autoConfirmAt := some (hourMs + 48 * hourMs) } }

/-- A disputed booking that was never confirmed by the client. -/
def disputedBooking : Booking :=
  { baseBooking with
    status := BookingStatus.disputed,
    dispute := { freshDispute with
                 isDisputed := true, disputedBy := some 1,
                 disputedAt := some (2 * hourMs),
                 reason := some "work not finished" } }

/-- A completed booking already confirmed manually by the client. -/
def confirmedBooking : Booking :=
  { completedBooking with
    confirmation := { completedBooking.confirmation with
                      clientConfirmed := true,
                      confirmedAt := some (2 * hourMs),
                      confirmationMethod := some ConfirmationMethod.manual } }

/-- An activated provider holding a balance of 100. -/
def providerBal100 : User :=
  { role := Role.provider, isActivated := true,
    wallet := { balance := 100, pendingBalance := 0, totalEarnings := 500 } }

/-- An activated provider holding a balance of 101. -/
def providerBal101 : User :=
  { providerBal100 with wallet := { providerBal100.wallet with balance := 101 } }

/-- An activated provider holding a balance of 102. -/
def providerBal102 : User :=
  { providerBal100 with wallet := { providerBal100.wallet with balance := 102 } }

/-- A pending booking-payment ledger entry whose metadata records a
    provider share of 250. -/
def webhookPayment : Payment :=
  { type := PaymentType.booking_payment, amount := 255,
    status := PaymentStatus.pending, providerAmount := 250 }

/-! Helper lemmas shared by the claim theorems. -/

/-- The source's `hoursDifference > 2` test over the rational division is
    the strict two-hour window on millisecond timestamps. -/
theorem two_hour_window_iff (d : ℤ) :
    ((2 : ℚ) < (d : ℚ) / (1000 * 60 * 60)) ↔ 2 * hourMs < d := by
  rw [lt_div_iff₀ (by norm_num : (0 : ℚ) < 1000 * 60 * 60)]
  rw [show ((2 : ℚ) * (1000 * 60 * 60)) = ((2 * hourMs : ℤ) : ℚ) by
    norm_num [hourMs]]
  exact Int.cast_lt

/-- A confirm request on an already-confirmed booking fails, whatever the
    caller's role, and leaves the booking and the provider unchanged. -/
theorem confirmRoute_confirmed_noop (role : Option BookingRole) (b : Booking)
    (u : User) (t : ℤ) (hc : b.confirmation.clientConfirmed = true) :
    (confirmRoute role b u t).response.isOk = false
      ∧ (confirmRoute role b u t).booking = b
      ∧ (confirmRoute role b u t).provider = u := by
  unfold confirmRoute
  split
  · exact ⟨rfl, rfl, rfl⟩
  · split
    · exact ⟨rfl, rfl, rfl⟩
    · exact ⟨rfl, rfl, rfl⟩

/-- A confirm request either fails leaving both documents unchanged, or
    succeeds producing a booking whose confirmed flag is set. -/
theorem confirmRoute_cases (role : Option BookingRole) (b : Booking)
    (u : User) (t : ℤ) :
    ((confirmRoute role b u t).response.isOk = false
      ∧ (confirmRoute role b u t).booking = b
      ∧ (confirmRoute role b u t).provider = u)
    ∨ ((confirmRoute role b u t).response.isOk = true
      ∧ (confirmRoute role b u t).booking.confirmation.clientConfirmed = true) := by
  unfold confirmRoute
  split
  · exact Or.inl ⟨rfl, rfl, rfl⟩
  · split
    · exact Or.inl ⟨rfl, rfl, rfl⟩
    · split
      · exact Or.inl ⟨rfl, rfl, rfl⟩
      · exact Or.inr ⟨rfl, rfl⟩

/-- Once the booking is confirmed, no further confirm request in a
    sequential trace succeeds. -/
theorem runConfirms_confirmed_eq_zero (calls : List ConfirmCall) :
    ∀ (b : Booking) (u : User), b.confirmation.clientConfirmed = true →
      runConfirms calls b u = 0 := by
  induction calls with
  | nil => intro b u _; rfl
  | cons c cs ih =>
      intro b u hc
      obtain ⟨hok, hb, hu⟩ := confirmRoute_confirmed_noop c.role b u c.now hc
      simp only [runConfirms, hok, hb, hu]
      simpa using ih b u hc

/-- `canBeCancelled` unfolded into the window condition on millisecond
    timestamps. -/
theorem canBeCancelled_iff (b : Booking) (now : ℤ) :
    b.canBeCancelled now = true ↔
      ((b.status = BookingStatus.pending ∨ b.status = BookingStatus.accepted)
        ∧ 2 * hourMs < b.scheduledDate - now) := by
  simp only [Booking.canBeCancelled, Bool.and_eq_true, decide_eq_true_eq]
  rw [two_hour_window_iff]

/-- In any sequential trace of confirm requests against one booking, at
    most one succeeds. -/
theorem runConfirms_le_one (calls : List ConfirmCall) :
    ∀ (b : Booking) (u : User), runConfirms calls b u ≤ 1 := by
  induction calls with
  | nil => intro b u; exact Nat.zero_le 1
  | cons c cs ih =>
      intro b u
      rcases confirmRoute_cases c.role b u c.now with ⟨hok, hb, hu⟩ | ⟨hok, hconf⟩
      · simp only [runConfirms, hok, hb, hu]
        simpa using ih b u
      · simp only [runConfirms, hok,
          runConfirms_confirmed_eq_zero cs _ _ hconf]
        simp

/-! Claim theorems. -/

/-- Claim C8: every call of `updateStatus` appends exactly one history
    entry recording the prior status, the acting user, and the reason —
    every pre-existing entry is preserved in place — and afterwards the
    booking's status equals the requested target status. -/
theorem claim8_updateStatus_appends_history (b : Booking)
    (s : BookingStatus) (uid : ℕ) (reason : String) (now : ℤ) :
    (b.updateStatus s uid reason now).statusHistory
      = b.statusHistory
        ++ [{ status := b.status, updatedBy := uid, reason := reason }]
    ∧ (b.updateStatus s uid reason now).status = s := by
  unfold Booking.updateStatus
  split
  · exact ⟨rfl, rfl⟩
  · exact ⟨rfl, rfl⟩

/-- Claim C6: `canBeCancelled` holds exactly when the status is pending or
    accepted and the scheduled time is strictly more than two hours in the
    future; at exactly two hours, or in any other status, it is false. -/
theorem claim6_canBeCancelled_iff (b : Booking) (now : ℤ) :
    b.canBeCancelled now = true ↔
      ((b.status = BookingStatus.pending ∨ b.status = BookingStatus.accepted)
        ∧ 2 * hourMs < b.scheduledDate - now) :=
  canBeCancelled_iff b now

/-- Claim C10: on a user whose role is not provider, each wallet method is
    a no-op for every amount: the user document, and in particular the
    balance, pending balance and total earnings, is returned unchanged. -/
theorem claim10_wallet_methods_nonprovider_noop (u : User) (amount : ℚ)
    (h : u.role ≠ Role.provider) :
    u.addEarnings amount = u
    ∧ u.addPendingEarnings amount = u
    ∧ u.confirmEarnings amount = u := by
  unfold User.addEarnings User.addPendingEarnings User.confirmEarnings
  rw [if_neg h, if_neg h, if_neg h]
  exact ⟨rfl, rfl, rfl⟩

/-- Claim C10 witness: the three wallet methods leave a client user
    unchanged. -/
theorem claim10_witness :
    sampleClient.addEarnings 7 = sampleClient
    ∧ sampleClient.addPendingEarnings 7 = sampleClient
    ∧ sampleClient.confirmEarnings 7 = sampleClient :=
  claim10_wallet_methods_nonprovider_noop sampleClient 7 (by decide)

/-- Claim C1 counterexample: a booking that was confirmed and then disputed
    still carries `clientConfirmed = true`, yet a further client confirm
    request fails with the invalid-status message, not with
    "Service already confirmed" as the claim states for every booking whose
    confirmed flag is set. -/
theorem claim1_counterexample :
    let afterConfirm := confirmRoute (some BookingRole.client) completedBooking
      sampleProvider (2 * hourMs)
    let afterDispute := disputeRoute (some BookingRole.client)
      afterConfirm.booking 1 "damage" "broken tile" none (3 * hourMs)
    let secondConfirm := confirmRoute (some BookingRole.client) afterDispute.2
      afterConfirm.provider (4 * hourMs)
    afterConfirm.response.isOk = true
    ∧ afterDispute.1.isOk = true
    ∧ afterDispute.2.confirmation.clientConfirmed = true
    ∧ secondConfirm.response
        = Response.err 400 "Only completed services can be confirmed"
    ∧ secondConfirm.response ≠ Response.err 400 "Service already confirmed" := by
  decide

/-- Claim C1 (amended): on every booking whose confirmed flag is already
    set — whatever its current status — any confirm request fails and
    leaves the booking document and the provider's wallet unmodified; the
    client's request fails with "Service already confirmed" when the
    booking is still in status completed, and with the invalid-status
    error "Only completed services can be confirmed" when it has since
    left that status; and in any sequential trace of confirm requests at
    most one succeeds, so `confirmEarnings` is applied at most once per
    booking. -/
theorem claim1_already_confirmed (b : Booking) (prov : User) (now : ℤ)
    (hc : b.confirmation.clientConfirmed = true) :
    (∀ (role : Option BookingRole) (t : ℤ),
        (confirmRoute role b prov t).response.isOk = false
        ∧ (confirmRoute role b prov t).booking = b
        ∧ (confirmRoute role b prov t).provider = prov)
    ∧ (b.status = BookingStatus.completed →
        (confirmRoute (some BookingRole.client) b prov now).response
          = Response.err 400 "Service already confirmed")
    ∧ (b.status ≠ BookingStatus.completed →
        (confirmRoute (some BookingRole.client) b prov now).response
          = Response.err 400 "Only completed services can be confirmed")
    ∧ (∀ (calls : List ConfirmCall) (b₀ : Booking) (u₀ : User),
        runConfirms calls b₀ u₀ ≤ 1) := by
  refine ⟨?_, ?_, ?_, ?_⟩
  · intro role t
    exact confirmRoute_confirmed_noop role b prov t hc
  · intro hs
    simp [confirmRoute, hs, hc]
  · intro hs
    unfold confirmRoute
    rw [if_neg (by simp), if_pos hs]
  · intro calls b₀ u₀
    exact runConfirms_le_one calls b₀ u₀

/-- Claim C1 witness: the amended statement at concrete confirmed
    bookings — the still-completed one yields "Service already confirmed"
    with no mutation, and after a subsequent dispute the client's request
    yields the invalid-status error, again with no mutation. -/
theorem claim1_witness :
    ((confirmRoute (some BookingRole.client) confirmedBooking sampleProvider
        (3 * hourMs)).response = Response.err 400 "Service already confirmed"
      ∧ (confirmRoute (some BookingRole.client) confirmedBooking
          sampleProvider (3 * hourMs)).booking = confirmedBooking
      ∧ (confirmRoute (some BookingRole.client) confirmedBooking
          sampleProvider (3 * hourMs)).provider = sampleProvider)
    ∧ ((confirmRoute (some BookingRole.client)
          { confirmedBooking with status := BookingStatus.disputed }
          sampleProvider (3 * hourMs)).response
        = Response.err 400 "Only completed services can be confirmed"
      ∧ (confirmRoute (some BookingRole.client)
          { confirmedBooking with status := BookingStatus.disputed }
          sampleProvider (3 * hourMs)).booking
        = { confirmedBooking with status := BookingStatus.disputed }) := by
  have h₁ := claim1_already_confirmed confirmedBooking sampleProvider
    (3 * hourMs) rfl
  have h₂ := claim1_already_confirmed
    { confirmedBooking with status := BookingStatus.disputed }
    sampleProvider (3 * hourMs) rfl
  exact ⟨⟨h₁.2.1 rfl,
      (h₁.1 (some BookingRole.client) (3 * hourMs)).2.1,
      (h₁.1 (some BookingRole.client) (3 * hourMs)).2.2⟩,
    h₂.2.2.1 (by decide),
    (h₂.1 (some BookingRole.client) (3 * hourMs)).2.1⟩

/-- Claim C3 counterexample: resolving a dispute transitions the booking to
    completed through `updateStatus`, which re-arms the auto-confirm
    deadline; 48 hours after resolution the resolved booking satisfies
    `shouldAutoConfirm`, and a manual client confirm also succeeds — the
    booking does re-enter the confirm/auto-confirm path. -/
theorem claim3_counterexample :
    let r := resolveDisputeRoute disputedBooking 99 "provider compensated"
      none (3 * hourMs)
    r.response.isOk = true
    ∧ r.booking.status = BookingStatus.completed
    ∧ r.booking.shouldAutoConfirm (3 * hourMs + 48 * hourMs) = true
    ∧ (confirmRoute (some BookingRole.client) r.booking sampleProvider
          (4 * hourMs)).response.isOk = true := by
  decide

/-- Claim C3 (amended): admin dispute resolution on a disputed booking sets
    the resolution sub-record, transitions the status back to completed,
    and creates a completed refund-type Payment exactly when a positive
    refund amount is given; however the transition resets the auto-confirm
    deadline to resolution time plus 48 hours, so the booking re-enters the
    confirm/auto-confirm path: if the client had not confirmed,
    `shouldAutoConfirm` holds 48 hours after resolution. -/
theorem claim3_resolve_dispute (b : Booking) (adminId : ℕ)
    (resolution : String) (refundAmount : Option ℚ) (now : ℤ)
    (hres : resolution ≠ "")
    (hra : refundAmount.any (fun r => decide (r < 0)) = false)
    (hs : b.status = BookingStatus.disputed) :
    (resolveDisputeRoute b adminId resolution refundAmount now).response.isOk
        = true
    ∧ (resolveDisputeRoute b adminId resolution refundAmount now).booking.status
        = BookingStatus.completed
    ∧ (resolveDisputeRoute b adminId resolution refundAmount now).booking.dispute.resolution
        = some { resolvedBy := adminId, resolvedAt := now,
                 resolution := resolution,
                 refundAmount := refundAmount.getD 0 }
    ∧ (∀ ra : ℚ, refundAmount = some ra → 0 < ra →
        (resolveDisputeRoute b adminId resolution refundAmount now).refundPayment
          = some { type := PaymentType.refund, amount := ra,
                   status := PaymentStatus.completed, providerAmount := 0 })
    ∧ (refundAmount = none →
        (resolveDisputeRoute b adminId resolution refundAmount now).refundPayment
          = none)
    ∧ (resolveDisputeRoute b adminId resolution refundAmount now).booking.confirmation.autoConfirmAt
        = some (now + 48 * hourMs)
    ∧ (b.confirmation.clientConfirmed = false →
        (resolveDisputeRoute b adminId resolution refundAmount now).booking.shouldAutoConfirm
            (now + 48 * hourMs) = true) := by
  have hval : (decide (resolution = "")
      || refundAmount.any (fun r => decide (r < 0))) = false := by
    simp [hres, hra]
  unfold resolveDisputeRoute
  rw [if_neg (by simp [hval])]
  rw [if_neg (by simp [hs])]
  refine ⟨rfl, ?_, ?_, ?_, ?_, ?_, ?_⟩
  · simp [Booking.updateStatus]
  · simp [Booking.updateStatus]
  · intro ra hra' hpos
    subst hra'
    simp [hpos]
  · intro hnone
    subst hnone
    rfl
  · simp [Booking.updateStatus, autoConfirmWindowMs]
  · intro hcf
    simp [Booking.updateStatus, Booking.shouldAutoConfirm, hcf,
      autoConfirmWindowMs]

/-- Claim C3 witness: the amended statement at a concrete disputed booking
    with a 50 EGP refund. -/
theorem claim3_witness :
    (resolveDisputeRoute disputedBooking 99 "partial refund" (some 50)
        0).response.isOk = true
    ∧ (resolveDisputeRoute disputedBooking 99 "partial refund" (some 50)
        0).refundPayment
        = some { type := PaymentType.refund, amount := 50,
                 status := PaymentStatus.completed, providerAmount := 0 }
    ∧ (resolveDisputeRoute disputedBooking 99 "partial refund" (some 50)
        0).booking.shouldAutoConfirm (0 + 48 * hourMs) = true := by
  have h := claim3_resolve_dispute disputedBooking 99 "partial refund"
    (some 50) 0 (by decide) (by norm_num [Option.any]) rfl
  exact ⟨h.1, h.2.2.2.1 50 rfl (by norm_num), h.2.2.2.2.2.2 rfl⟩

/-- Claim C4: completing an in-progress booking (by its provider) succeeds,
    records the completion time, computes the actual duration as the
    completion time minus the start time rounded to minutes, arms the
    auto-confirm deadline at completion time plus 48 hours, and increases
    the provider's pending balance by exactly
    `servicePrice + addOnsPrice` (balance and total earnings unchanged);
    on any booking not in status in_progress the request fails and both
    documents are left unchanged. -/
theorem claim4_complete_effects (role : Option BookingRole) (b : Booking)
    (prov : User) (userId : ℕ) (notes : Option String)
    (photos : Option (List String)) (now s : ℤ)
    (hrole : role = some BookingRole.provider)
    (hprov : prov.role = Role.provider)
    (hstatus : b.status = BookingStatus.in_progress)
    (hstart : b.execution.startedAt = some s) :
    (completeRoute role b prov userId notes photos now).response.isOk = true
    ∧ (completeRoute role b prov userId notes photos now).booking.status
        = BookingStatus.completed
    ∧ (completeRoute role b prov userId notes photos now).booking.execution.completedAt
        = some now
    ∧ (completeRoute role b prov userId notes photos now).booking.execution.actualDuration
        = some (jsRound (((now - s : ℤ) : ℚ) / (1000 * 60)))
    ∧ (completeRoute role b prov userId notes photos now).booking.confirmation.autoConfirmAt
        = some (now + 48 * hourMs)
    ∧ (completeRoute role b prov userId notes photos now).provider.wallet.pendingBalance
        = prov.wallet.pendingBalance
          + (b.pricing.servicePrice + b.pricing.addOnsPrice)
    ∧ (completeRoute role b prov userId notes photos now).provider.wallet.balance
        = prov.wallet.balance
    ∧ (completeRoute role b prov userId notes photos now).provider.wallet.totalEarnings
        = prov.wallet.totalEarnings
    ∧ (∀ (role' : Option BookingRole) (b' : Booking) (prov' : User) (uid : ℕ)
        (n : Option String) (p : Option (List String)) (t : ℤ),
        b'.status ≠ BookingStatus.in_progress →
          (completeRoute role' b' prov' uid n p t).response.isOk = false
          ∧ (completeRoute role' b' prov' uid n p t).booking = b'
          ∧ (completeRoute role' b' prov' uid n p t).provider = prov') := by
  subst hrole
  refine ⟨?_, ?_, ?_, ?_, ?_, ?_, ?_, ?_, ?_⟩
  · simp [completeRoute, hstatus, Response.isOk]
  · simp [completeRoute, hstatus, Booking.updateStatus]
  · simp [completeRoute, hstatus, Booking.updateStatus]
  · simp [completeRoute, hstatus, hstart, Booking.updateStatus]
  · simp [completeRoute, hstatus, Booking.updateStatus, autoConfirmWindowMs]
  · simp [completeRoute, hstatus, Booking.updateStatus,
      User.addPendingEarnings, hprov]
  · simp [completeRoute, hstatus, Booking.updateStatus,
      User.addPendingEarnings, hprov]
  · simp [completeRoute, hstatus, Booking.updateStatus,
      User.addPendingEarnings, hprov]
  · intro role' b' prov' uid n p t h
    unfold completeRoute
    split
    · exact ⟨rfl, rfl, rfl⟩
    · exact ⟨rfl, rfl, rfl⟩

/-- Claim C4 witness: completing a concrete in-progress booking ninety
    minutes after its start. -/
theorem claim4_witness :
    (completeRoute (some BookingRole.provider) inProgressBooking
        sampleProvider 9 none none (90 * 60 * 1000)).response.isOk = true
    ∧ (completeRoute (some BookingRole.provider) inProgressBooking
        sampleProvider 9 none none (90 * 60 * 1000)).booking.execution.actualDuration
        = some (jsRound (((90 * 60 * 1000 - 0 : ℤ) : ℚ) / (1000 * 60)))
    ∧ (completeRoute (some BookingRole.provider) inProgressBooking
        sampleProvider 9 none none (90 * 60 * 1000)).provider.wallet.pendingBalance
        = sampleProvider.wallet.pendingBalance
          + (inProgressBooking.pricing.servicePrice
              + inProgressBooking.pricing.addOnsPrice) := by
  have h := claim4_complete_effects (some BookingRole.provider)
    inProgressBooking sampleProvider 9 none none (90 * 60 * 1000) 0
    rfl rfl rfl rfl
  exact ⟨h.1, h.2.2.2.1, h.2.2.2.2.2.1⟩

/-- Claim C5 counterexample: with amount 10 the fee is 2 and the balance
    100 covers the deduction of 12, so the claim predicts success with the
    balance reduced to 88 — but the handler fails ("Withdrawal processing
    failed", the 50 EGP minimum) and leaves the wallet unchanged. -/
theorem claim5_counterexample :
    calculatePlatformFee 10 FeeType.withdrawal = 2
    ∧ (10 : ℚ) + calculatePlatformFee 10 FeeType.withdrawal
        ≤ providerBal100.wallet.balance
    ∧ (withdrawRoute providerBal100 10).response
        = Response.err 400 "Withdrawal processing failed"
    ∧ (withdrawRoute providerBal100 10).user = providerBal100 := by
  refine ⟨?_, ?_, ?_, ?_⟩ <;>
    norm_num [withdrawRoute, calculatePlatformFee, providerBal100, max_def]

/-- Claim C5 (amended): a provider withdrawal of amount A with fee
    F = max(0.02·A, 2) fails with InsufficientBalance when the balance is
    below A + F, leaving the balance unchanged; otherwise, when A meets the
    50 EGP minimum, it succeeds and the new balance is the old balance
    minus (A + F); when A is below the minimum it fails with the
    withdrawal-processing error and leaves the balance unchanged. -/
theorem claim5_withdraw (u : User) (amount : ℚ)
    (hrole : u.role = Role.provider) (hact : u.isActivated = true) :
    calculatePlatformFee amount FeeType.withdrawal
        = max (amount * (2 / 100)) 2
    ∧ (u.wallet.balance
          < amount + calculatePlatformFee amount FeeType.withdrawal →
        (withdrawRoute u amount).response
            = Response.err 400 "Insufficient balance"
        ∧ (withdrawRoute u amount).user = u)
    ∧ (amount + calculatePlatformFee amount FeeType.withdrawal
          ≤ u.wallet.balance → 50 ≤ amount →
        (withdrawRoute u amount).response.isOk = true
        ∧ (withdrawRoute u amount).user.wallet.balance
            = u.wallet.balance
              - (amount + calculatePlatformFee amount FeeType.withdrawal))
    ∧ (amount + calculatePlatformFee amount FeeType.withdrawal
          ≤ u.wallet.balance → amount < 50 →
        (withdrawRoute u amount).response
            = Response.err 400 "Withdrawal processing failed"
        ∧ (withdrawRoute u amount).user = u) := by
  refine ⟨rfl, ?_, ?_, ?_⟩
  · intro h
    unfold withdrawRoute
    rw [if_neg (by simp [hrole]), if_neg (by simp [hact]), if_pos h]
    exact ⟨rfl, rfl⟩
  · intro h1 h2
    unfold withdrawRoute
    rw [if_neg (by simp [hrole]), if_neg (by simp [hact]),
      if_neg (not_lt.mpr h1), if_neg (not_lt.mpr h2)]
    exact ⟨rfl, rfl⟩
  · intro h1 h2
    unfold withdrawRoute
    rw [if_neg (by simp [hrole]), if_neg (by simp [hact]),
      if_neg (not_lt.mpr h1), if_pos h2]
    exact ⟨rfl, rfl⟩

/-- Claim C5 witness: amount 100 with fee 2 fails against balance 101 with
    InsufficientBalance and leaves the user unchanged; against balance 102
    it succeeds leaving balance 0. -/
theorem claim5_witness :
    ((withdrawRoute providerBal101 100).response
        = Response.err 400 "Insufficient balance"
      ∧ (withdrawRoute providerBal101 100).user = providerBal101)
    ∧ (withdrawRoute providerBal102 100).response.isOk = true
    ∧ (withdrawRoute providerBal102 100).user.wallet.balance = 0 := by
  have h101 := (claim5_withdraw providerBal101 100 rfl rfl).2.1
    (by norm_num [providerBal101, providerBal100, calculatePlatformFee,
      max_def])
  have h102 := (claim5_withdraw providerBal102 100 rfl rfl).2.2.1
    (by norm_num [providerBal102, providerBal100, calculatePlatformFee,
      max_def])
    (by norm_num)
  refine ⟨h101, h102.1, ?_⟩
  rw [h102.2]
  norm_num [providerBal102, providerBal100, calculatePlatformFee, max_def]

/-- Claim C7 counterexample: the cancel handler performs no role check, so
    a provider cancelling their own pending booking (scheduled ten hours
    ahead) succeeds instead of being rejected with Forbidden. -/
theorem claim7_counterexample :
    (cancelRoute (some BookingRole.provider) baseBooking 7
        "schedule conflict" 0).1.isOk = true
    ∧ (cancelRoute (some BookingRole.provider) baseBooking 7
        "schedule conflict" 0).2.status = BookingStatus.cancelled := by
  have hcan : baseBooking.canBeCancelled 0 = true := by
    rw [canBeCancelled_iff]
    refine ⟨Or.inl rfl, ?_⟩
    norm_num [baseBooking, hourMs]
  unfold cancelRoute
  rw [if_neg (by decide), if_neg (by simp [hcan])]
  exact ⟨rfl, rfl⟩

/-- Claim C7 (amended): accept, reject, start and complete validate that
    the caller is the booking's provider and confirm validates that the
    caller is the client, each failing with a 403 Forbidden error and
    leaving the documents unchanged on a role mismatch; but the cancel and
    dispute handlers perform no role validation at all — their outcome is
    independent of the caller's booking role, so a provider's cancel
    request succeeds whenever cancellation is otherwise permitted. -/
theorem claim7_role_validation (b : Booking) (prov : User) (uid : ℕ)
    (msg notes : Option String) (photos evidence : Option (List String))
    (reason description : String) (now : ℤ) :
    (∀ role, role ≠ some BookingRole.provider →
        ((acceptRoute role b uid msg now).1
            = Response.err 403 "Only providers can accept bookings"
          ∧ (acceptRoute role b uid msg now).2 = b)
        ∧ (reason ≠ "" →
            (rejectRoute role b uid reason now).1
              = Response.err 403 "Only providers can reject bookings"
            ∧ (rejectRoute role b uid reason now).2 = b)
        ∧ ((startRoute role b uid now).1
            = Response.err 403 "Only providers can start service"
          ∧ (startRoute role b uid now).2 = b)
        ∧ ((completeRoute role b prov uid notes photos now).response
            = Response.err 403 "Only providers can complete service"
          ∧ (completeRoute role b prov uid notes photos now).booking = b
          ∧ (completeRoute role b prov uid notes photos now).provider = prov))
    ∧ (∀ role, role ≠ some BookingRole.client →
        (confirmRoute role b prov now).response
            = Response.err 403 "Only clients can confirm service completion"
        ∧ (confirmRoute role b prov now).booking = b
        ∧ (confirmRoute role b prov now).provider = prov)
    ∧ (∀ role₁ role₂ : Option BookingRole,
        cancelRoute role₁ b uid reason now = cancelRoute role₂ b uid reason now)
    ∧ (∀ role₁ role₂ : Option BookingRole,
        disputeRoute role₁ b uid reason description evidence now
          = disputeRoute role₂ b uid reason description evidence now) := by
  refine ⟨?_, ?_, ?_, ?_⟩
  · intro role h
    refine ⟨?_, ?_, ?_, ?_⟩
    · unfold acceptRoute
      rw [if_pos h]
      exact ⟨rfl, rfl⟩
    · intro hr
      unfold rejectRoute
      rw [if_neg hr, if_pos h]
      exact ⟨rfl, rfl⟩
    · unfold startRoute
      rw [if_pos h]
      exact ⟨rfl, rfl⟩
    · unfold completeRoute
      rw [if_pos h]
      exact ⟨rfl, rfl, rfl⟩
  · intro role h
    unfold confirmRoute
    rw [if_pos h]
    exact ⟨rfl, rfl, rfl⟩
  · intro role₁ role₂
    rfl
  · intro role₁ role₂
    rfl

/-- Claim C7 witness: an admin caller (no attached booking role) is
    rejected by accept with the provider-only error, and by confirm with
    the client-only error, both leaving the booking unchanged. -/
theorem claim7_witness :
    ((acceptRoute none baseBooking 7 none 0).1
        = Response.err 403 "Only providers can accept bookings"
      ∧ (acceptRoute none baseBooking 7 none 0).2 = baseBooking)
    ∧ (confirmRoute none completedBooking sampleProvider 0).response
        = Response.err 403 "Only clients can confirm service completion" := by
  refine ⟨?_, ?_⟩
  · exact (claim7_role_validation baseBooking sampleProvider 7 none none
      none none "r" "d" 0).1 none (by decide) |>.1
  · exact (claim7_role_validation completedBooking sampleProvider 7 none
      none none none "r" "d" 0).2.1 none (by decide) |>.1

/-- Claim C9: the provider's lifetime `totalEarnings` is monotone under
    every wallet-mutating operation invoked with a non-negative amount:
    `addEarnings` can only increase it, `addPendingEarnings` and
    `confirmEarnings` leave it unchanged, the webhook and synchronous
    payment wallet credits can only increase it, and the withdrawal
    settlement leaves it unchanged. -/
theorem claim9_totalEarnings_monotone (u : User) (amount : ℚ) (p : Payment)
    (b : Booking) (prov : User) (now : ℤ)
    (hamount : 0 ≤ amount) (hpa : 0 ≤ p.providerAmount) :
    u.wallet.totalEarnings ≤ (u.addEarnings amount).wallet.totalEarnings
    ∧ (u.addPendingEarnings amount).wallet.totalEarnings
        = u.wallet.totalEarnings
    ∧ (u.confirmEarnings amount).wallet.totalEarnings
        = u.wallet.totalEarnings
    ∧ prov.wallet.totalEarnings
        ≤ (stripeWebhookDeliver p b prov now).provider.wallet.totalEarnings
    ∧ prov.wallet.totalEarnings
        ≤ (processPaymentWalletCredit prov p.providerAmount).wallet.totalEarnings
    ∧ (withdrawRoute u amount).user.wallet.totalEarnings
        = u.wallet.totalEarnings := by
  refine ⟨?_, ?_, ?_, ?_, ?_, ?_⟩
  · unfold User.addEarnings
    split
    · simp only
      linarith
    · exact le_refl _
  · unfold User.addPendingEarnings
    split
    · rfl
    · rfl
  · unfold User.confirmEarnings
    split
    · rfl
    · rfl
  · unfold stripeWebhookDeliver
    dsimp only
    split
    · dsimp only
      linarith
    · exact le_refl _
  · unfold processPaymentWalletCredit
    dsimp only
    linarith
  · unfold withdrawRoute
    dsimp only
    repeat' split
    all_goals rfl

/-- Claim C9 witness: the monotonicity statement at a concrete provider
    and amount. -/
theorem claim9_witness :
    sampleProvider.wallet.totalEarnings
        ≤ (sampleProvider.addEarnings 5).wallet.totalEarnings
    ∧ (sampleProvider.confirmEarnings 5).wallet.totalEarnings
        = sampleProvider.wallet.totalEarnings
    ∧ (withdrawRoute sampleProvider 5).user.wallet.totalEarnings
        = sampleProvider.wallet.totalEarnings := by
  have h := claim9_totalEarnings_monotone sampleProvider 5 webhookPayment
    baseBooking sampleProvider 0 (by norm_num)
    (by norm_num [webhookPayment])
  exact ⟨h.1, h.2.2.1, h.2.2.2.2.2⟩

/-- Claim C2: the webhook handler applies its success side effect with no
    guard on the payment's current status — delivering the same
    `payment_intent.succeeded` event twice for one booking payment sets the
    payment to completed both times and credits the provider's wallet on
    each delivery, doubling balance and total earnings instead of being a
    no-op the second time. -/
theorem claim2_webhook_double_credit :
    (stripeWebhookDeliver webhookPayment baseBooking sampleProvider
        (5 * hourMs)).payment.status = PaymentStatus.completed
    ∧ (stripeWebhookDeliver webhookPayment baseBooking sampleProvider
        (5 * hourMs)).provider.wallet.balance = 250
    ∧ (stripeWebhookDeliver webhookPayment baseBooking sampleProvider
        (5 * hourMs)).provider.wallet.totalEarnings = 250
    ∧ (stripeWebhookDeliver
        (stripeWebhookDeliver webhookPayment baseBooking sampleProvider
          (5 * hourMs)).payment
        (stripeWebhookDeliver webhookPayment baseBooking sampleProvider
          (5 * hourMs)).booking
        (stripeWebhookDeliver webhookPayment baseBooking sampleProvider
          (5 * hourMs)).provider
        (6 * hourMs)).provider.wallet.balance = 500
    ∧ (stripeWebhookDeliver
        (stripeWebhookDeliver webhookPayment baseBooking sampleProvider
          (5 * hourMs)).payment
        (stripeWebhookDeliver webhookPayment baseBooking sampleProvider
          (5 * hourMs)).booking
        (stripeWebhookDeliver webhookPayment baseBooking sampleProvider
          (5 * hourMs)).provider
        (6 * hourMs)).provider
      ≠ (stripeWebhookDeliver webhookPayment baseBooking sampleProvider
          (5 * hourMs)).provider := by
  refine ⟨?_, ?_, ?_, ?_, ?_⟩ <;>
    norm_num [stripeWebhookDeliver, webhookPayment, sampleProvider,
      User.mk.injEq, Wallet.mk.injEq]

end FixIt
